import Mathlib

/-!
Verification of the strategy execution core of a backtrader-based trading bot
(src/strategies/general_strategy.py).  The embedding models, per strategy
instance, the per-asset position ledger (`assets_registry`), the shared
pending-funds reservation counter (`pending_operation_funds`), the per-bar
decision loop (`next`), and the order-lifecycle handlers (`notify_order`,
`handle_completed_order`, `handle_not_completed_order`).  Prices and monetary
amounts are modelled as rationals, unit counts as integers (Python ints).
-/

namespace TradingBot

/-- Python's `int()` applied to a number: truncation toward zero. -/
def pyInt (q : ℚ) : ℤ := if 0 ≤ q then ⌊q⌋ else ⌈q⌉

/-- Order side, as exposed by backtrader's `order.isbuy()` / `order.issell()`. -/
inductive Side
  | buy
  | sell
deriving DecidableEq

/-- The backtrader order statuses that `notify_order` can observe.  The
status→handler dictionary in the source names `Completed`, `Canceled`,
`Margin` and `Rejected`; every other status falls through with no action. -/
inductive OrderStatus
  | Created
  | Submitted
  | Accepted
  | Completed
  | Canceled
  | Expired
  | Margin
  | Rejected
deriving DecidableEq

/-- An order as submitted by the driver: side, asset name (`data._name`) and
requested size (the positive `size` argument passed to `buy()` / `sell()`). -/
structure Order where
  side : Side
  asset : String
  size : ℤ
deriving DecidableEq

/-- The mutable state of one strategy instance together with the shared
class-level reservation counter.  `registry` is `assets_registry` (total map,
all assets initialised to 0 in `__init__`); `pending` is
`GeneralStrategy.pending_operation_funds`; `inflight` is environment
bookkeeping for orders submitted but not yet terminally notified. -/
@[ext]
structure GState where
  registry : String → ℤ
  pending : ℚ
  inflight : List Order

/-- `get_purchase_vol`: size of the position to buy, from the fraction of the
portfolio that may be used.  `total_value = broker.getvalue()`,
`money_to_invest = total_value * investment_fraction`,
`available_funds = broker.get_cash() - pending_operation_funds`. -/
def get_purchase_vol (totalValue cash pendingFunds fraction close : ℚ) : ℤ :=
  if totalValue * fraction ≤ cash - pendingFunds then
    pyInt (totalValue * fraction / close)
  else 0

/-- The per-bar, per-asset information the strategy reads from its
collaborators: the asset's current close, the results of `conditions_buy` /
`conditions_sell`, and the broker's portfolio value and free cash. -/
structure BarInput where
  close : ℚ
  condBuy : Bool
  condSell : Bool
  totalValue : ℚ
  cash : ℚ

/-- One iteration of the loop body of `next` for a single asset `a`:
if the registry entry is 0 and the buy conditions hold, compute the volume
and (when positive) reserve `vol * close` and submit a buy; else if the
entry is positive and the sell conditions hold, submit a sell for exactly
the registry entry.  Submission is modelled by consing onto `inflight`. -/
def applyBar (frac : ℚ) (st : GState) (a : String) (inp : BarInput) : GState :=
  if st.registry a = 0 ∧ inp.condBuy then
    if 0 < get_purchase_vol inp.totalValue inp.cash st.pending frac inp.close then
      { st with
          pending := st.pending +
            (get_purchase_vol inp.totalValue inp.cash st.pending frac inp.close : ℚ) * inp.close,
          inflight :=
            { side := Side.buy, asset := a,
              size := get_purchase_vol inp.totalValue inp.cash st.pending frac inp.close }
              :: st.inflight }
    else st
  else if 0 < st.registry a ∧ inp.condSell then
    { st with
        inflight := { side := Side.sell, asset := a, size := st.registry a } :: st.inflight }
  else st

/-- `handle_completed_order`: for a buy, subtract `executed.size * close[0]`
(current close at notification time) from the pending funds; for a buy or a
sell, add `executed.size` to the asset's registry entry; for anything else
return early.  `executedPrice` (`order.executed.price`) is carried only into
the log line in the source, which is not modelled here. -/
def handle_completed_order (isbuy issell : Bool) (asset : String) (executedSize : ℤ)
    (executedPrice closeNow : ℚ) (st : GState) : GState :=
  if !isbuy && !issell then st
  else
    { registry := Function.update st.registry asset (st.registry asset + executedSize),
      pending := if isbuy then st.pending - (executedSize : ℚ) * closeNow else st.pending,
      inflight := st.inflight }

/-- `handle_not_completed_order`: for a buy, subtract
`order.size * close[0]` (the requested size times the current close) from the
pending funds; a sell only produces a log line, mutating nothing. -/
def handle_not_completed_order (isbuy issell : Bool) (orderSize : ℤ) (closeNow : ℚ)
    (st : GState) : GState :=
  if isbuy then { st with pending := st.pending - (orderSize : ℚ) * closeNow }
  else st

/-- `notify_order`: dispatch on the order status through the status→handler
dictionary; statuses outside the dictionary leave the state untouched. -/
def notify_order (status : OrderStatus) (isbuy issell : Bool) (asset : String)
    (orderSize executedSize : ℤ) (executedPrice closeNow : ℚ) (st : GState) : GState :=
  match status with
  | OrderStatus.Completed =>
      handle_completed_order isbuy issell asset executedSize executedPrice closeNow st
  | OrderStatus.Canceled =>
      handle_not_completed_order isbuy issell orderSize closeNow st
  | OrderStatus.Margin =>
      handle_not_completed_order isbuy issell orderSize closeNow st
  | OrderStatus.Rejected =>
      handle_not_completed_order isbuy issell orderSize closeNow st
  | _ => st

/-- Executed size reported by the broker for a `Completed` order.  The order
engine fills orders entirely or not at all; backtrader reports a positive
executed size for buys and a negative one for sells (the source relies on the
sell size being negative when it adds it to the registry). -/
def execSize (o : Order) : ℤ :=
  match o.side with
  | Side.buy => o.size
  | Side.sell => -o.size

/-- The terminal statuses: exactly the keys of the status→handler dictionary. -/
def isTerminal (status : OrderStatus) : Prop :=
  status = OrderStatus.Completed ∨ status = OrderStatus.Canceled ∨
    status = OrderStatus.Margin ∨ status = OrderStatus.Rejected

/-- Delivery of the terminal notification for in-flight order `o`: run
`notify_order` on the strategy state and drop `o` from the in-flight
bookkeeping (`rest` is the remaining in-flight list). -/
def applyNotifyTerminal (o : Order) (status : OrderStatus) (executedPrice closeNow : ℚ)
    (rest : List Order) (st : GState) : GState :=
  { notify_order status (o.side == Side.buy) (o.side == Side.sell) o.asset o.size
      (execSize o) executedPrice closeNow st with
    inflight := rest }

/-- One step of a run: either a driver bar step on one asset (with the bar
data and broker readings supplied by the environment), or delivery of a
terminal notification for one in-flight order (with the close price at
notification time supplied by the environment), or a non-terminal
notification.  Notifications may be interleaved arbitrarily with bar steps. -/
inductive Step (frac : ℚ) : GState → GState → Prop
  | bar (st : GState) (a : String) (inp : BarInput) :
      Step frac st (applyBar frac st a inp)
  | notifyTerm (st : GState) (pre post : List Order) (o : Order) (status : OrderStatus)
      (executedPrice closeNow : ℚ) :
      st.inflight = pre ++ o :: post →
      isTerminal status →
      Step frac st (applyNotifyTerminal o status executedPrice closeNow (pre ++ post) st)
  | notifyNonTerm (st : GState) (o : Order) (status : OrderStatus)
      (executedPrice closeNow : ℚ) :
      o ∈ st.inflight →
      ¬ isTerminal status →
      Step frac st (notify_order status (o.side == Side.buy) (o.side == Side.sell) o.asset
        o.size (execSize o) executedPrice closeNow st)

/-- Restricted runs: same steps, but a bar step on asset `a` is only taken
when no order on `a` is still in flight, i.e. every order's terminal
notification is processed before the next bar step on its asset (the
scheduling of the backtrader engine, which resolves a market order before
calling `next` again). -/
inductive RStep (frac : ℚ) : GState → GState → Prop
  | bar (st : GState) (a : String) (inp : BarInput) :
      (∀ o ∈ st.inflight, o.asset ≠ a) →
      RStep frac st (applyBar frac st a inp)
  | notifyTerm (st : GState) (pre post : List Order) (o : Order) (status : OrderStatus)
      (executedPrice closeNow : ℚ) :
      st.inflight = pre ++ o :: post →
      isTerminal status →
      RStep frac st (applyNotifyTerminal o status executedPrice closeNow (pre ++ post) st)
  | notifyNonTerm (st : GState) (o : Order) (status : OrderStatus)
      (executedPrice closeNow : ℚ) :
      o ∈ st.inflight →
      ¬ isTerminal status →
      RStep frac st (notify_order status (o.side == Side.buy) (o.side == Side.sell) o.asset
        o.size (execSize o) executedPrice closeNow st)

/-- The state at strategy start: every registry entry 0 (`__init__`), the
class-level pending counter 0, nothing in flight. -/
def initState : GState :=
  { registry := fun _ => 0, pending := 0, inflight := [] }

/-- A concrete asset name used in witnesses and counterexamples. -/
def assetA : String := "A"

/-! Helper lemmas on the lifecycle handlers. -/

theorem handle_not_completed_registry (isbuy issell : Bool) (orderSize : ℤ) (closeNow : ℚ)
    (st : GState) :
    (handle_not_completed_order isbuy issell orderSize closeNow st).registry = st.registry := by
  unfold handle_not_completed_order
  split <;> rfl

theorem handle_not_completed_pending (isbuy issell : Bool) (orderSize : ℤ) (closeNow : ℚ)
    (st : GState) :
    (handle_not_completed_order isbuy issell orderSize closeNow st).pending =
      if isbuy then st.pending - (orderSize : ℚ) * closeNow else st.pending := by
  unfold handle_not_completed_order
  split <;> simp_all

theorem notify_order_nonterminal (status : OrderStatus) (h : ¬ isTerminal status)
    (isbuy issell : Bool) (asset : String) (orderSize executedSize : ℤ)
    (executedPrice closeNow : ℚ) (st : GState) :
    notify_order status isbuy issell asset orderSize executedSize executedPrice closeNow st
      = st := by
  cases status <;> simp_all [isTerminal, notify_order]

/-! The claims. -/

/-- C7: the computed purchase volume is
`floor((totalValue * investment_fraction) / close)` when
`investment_fraction * totalValue ≤ cash - pendingFunds` (available cash being
broker free cash minus the pending funds), and `0` otherwise. -/
theorem c7_purchase_vol (totalValue cash pendingFunds fraction close : ℚ)
    (h1 : 0 ≤ totalValue * fraction) (h2 : 0 < close) :
    get_purchase_vol totalValue cash pendingFunds fraction close =
      if fraction * totalValue ≤ cash - pendingFunds
      then ⌊totalValue * fraction / close⌋ else 0 := by
  unfold get_purchase_vol pyInt
  rw [mul_comm fraction totalValue]
  split
  · rw [if_pos (div_nonneg h1 h2.le)]
  · rfl

theorem c7_purchase_vol_witness :
    0 ≤ (1000 : ℚ) * (1 / 10) ∧ (0 : ℚ) < 100 ∧
      get_purchase_vol 1000 1000 0 (1 / 10) 100 =
        (if (1 / 10 : ℚ) * 1000 ≤ 1000 - 0
         then ⌊(1000 : ℚ) * (1 / 10) / 100⌋ else 0) :=
  ⟨by norm_num, by norm_num,
    c7_purchase_vol 1000 1000 0 (1 / 10) 100 (by norm_num) (by norm_num)⟩

/-- C10: a `Completed` order that is neither a buy nor a sell takes the early
return, leaving the whole state (registry, pending funds, in-flight list)
unchanged. -/
theorem c10_completed_other_frame (asset : String) (executedSize : ℤ)
    (executedPrice closeNow : ℚ) (st : GState) :
    handle_completed_order false false asset executedSize executedPrice closeNow st = st :=
  rfl

/-- C2 (amended): for a completed buy order the handler decreases the shared
pending-funds counter by `executedSize * close-at-notification-time` (not by
`executedSize * executedPrice`) and increases the asset's registry entry by
`executedSize`. -/
theorem c2_completed_buy_effect (asset : String) (executedSize : ℤ)
    (executedPrice closeNow : ℚ) (st : GState) :
    (handle_completed_order true false asset executedSize executedPrice closeNow st).pending
        = st.pending - (executedSize : ℚ) * closeNow ∧
    (handle_completed_order true false asset executedSize executedPrice closeNow st).registry
        asset = st.registry asset + executedSize := by
  constructor
  · rfl
  · simp [handle_completed_order]

/-- State for the C2 counterexample. -/
def c2St : GState := { registry := fun _ => 0, pending := 10100, inflight := [] }

/-- C2 counterexample: a completed buy with `executed.size = 100`,
`executed.price = 101` arriving when the current close is `99` releases
`9900`, not `executedSize * executedPrice = 10100`. -/
theorem c2_completed_buy_cex :
    (handle_completed_order true false assetA 100 101 99 c2St).pending = c2St.pending - 9900 ∧
      ((9900 : ℚ) ≠ 100 * 101) := by
  constructor
  · norm_num [handle_completed_order, c2St]
  · norm_num

/-- State for the C3 counterexample. -/
def c3St : GState := { registry := fun _ => 0, pending := 10000, inflight := [] }

/-- C3: `notify_order` has no duplicate-resolution check: delivering the same
`Completed` buy notification (size 100, close 100) twice re-applies both
mutations — the registry entry becomes 200 and the reservation is released
twice (pending drops to -10000) — instead of rejecting the second delivery. -/
theorem c3_duplicate_reapplied :
    (notify_order OrderStatus.Completed true false assetA 100 100 100 100
        (notify_order OrderStatus.Completed true false assetA 100 100 100 100 c3St)).registry
        assetA = 200 ∧
    (notify_order OrderStatus.Completed true false assetA 100 100 100 100
        (notify_order OrderStatus.Completed true false assetA 100 100 100 100 c3St)).pending
        = -10000 := by
  constructor <;>
    norm_num [notify_order, handle_completed_order, c3St]

/-- State for the C5 counterexample: no position held on any asset. -/
def c5St : GState := { registry := fun _ => 0, pending := 0, inflight := [] }

/-- C5: a completed sell of 5 units (`executed.size = -5`) reported while the
registry entry is 0 silently drives the entry to -5: the code raises no
`InvalidLedgerOperation`, it just adds the negative executed size. -/
theorem c5_silent_negative_entry :
    (handle_completed_order false true assetA (-5) 20 20 c5St).registry assetA = -5 := by
  norm_num [handle_completed_order, c5St]

/-- C9: for a terminal failure status (Canceled, Margin or Rejected) the
registry is never touched, and the pending funds drop by
`requestedSize * currentClose` for a buy while staying unchanged for any
non-buy order. -/
theorem c9_failed_order_effect (status : OrderStatus)
    (h : status = OrderStatus.Canceled ∨ status = OrderStatus.Margin ∨
      status = OrderStatus.Rejected)
    (isbuy issell : Bool) (asset : String) (orderSize executedSize : ℤ)
    (executedPrice closeNow : ℚ) (st : GState) :
    (notify_order status isbuy issell asset orderSize executedSize executedPrice closeNow
        st).registry = st.registry ∧
    (notify_order status isbuy issell asset orderSize executedSize executedPrice closeNow
        st).pending =
      (if isbuy then st.pending - (orderSize : ℚ) * closeNow else st.pending) := by
  rcases h with h | h | h <;> subst h <;>
    exact ⟨handle_not_completed_registry isbuy issell orderSize closeNow st,
      handle_not_completed_pending isbuy issell orderSize closeNow st⟩

/-- State for the C9 witness. -/
def c9St : GState := { registry := fun _ => 0, pending := 100, inflight := [] }

theorem c9_failed_order_effect_witness :
    (notify_order OrderStatus.Canceled true false assetA 5 0 0 20 c9St).registry
        = c9St.registry ∧
    (notify_order OrderStatus.Canceled true false assetA 5 0 0 20 c9St).pending =
      (if true then c9St.pending - ((5 : ℤ) : ℚ) * 20 else c9St.pending) :=
  c9_failed_order_effect OrderStatus.Canceled (Or.inl rfl) true false assetA 5 0 0 20 c9St

/-- C8: whenever a bar step submits a sell order, the requested size is
exactly the registry entry for that asset at submission time, and that entry
is positive. -/
theorem c8_sell_size (frac : ℚ) (st : GState) (a : String) (inp : BarInput) (o : Order)
    (h : (applyBar frac st a inp).inflight = o :: st.inflight)
    (hsell : o.side = Side.sell) :
    o.size = st.registry a ∧ 0 < st.registry a := by
  unfold applyBar at h
  split at h
  · split at h
    · simp only [List.cons.injEq, and_true] at h
      rw [← h] at hsell
      cases hsell
    · exact absurd h (by simp)
  · split at h
    case isTrue hpos =>
      simp only [List.cons.injEq, and_true] at h
      rw [← h]
      exact ⟨rfl, hpos.1⟩
    case isFalse =>
      exact absurd h (by simp)

/-- State and bar data for the C8 witness: 5 units held, sell conditions met. -/
def c8St : GState := { registry := fun _ => 5, pending := 0, inflight := [] }

/-- Bar data for the C8 witness. -/
def c8Inp : BarInput :=
  { close := 20, condBuy := false, condSell := true, totalValue := 1000, cash := 1000 }

theorem c8_sell_size_witness :
    ({ side := Side.sell, asset := assetA, size := 5 } : Order).size = c8St.registry assetA ∧
      0 < c8St.registry assetA :=
  c8_sell_size (1 / 10) c8St assetA c8Inp { side := Side.sell, asset := assetA, size := 5 }
    (by norm_num [applyBar, c8St, c8Inp]) rfl

/-! C1: a run in which the single buy order is reconciled, yet the pending
funds counter does not return to 0.  The buy reserves `1 * 100` at
submission; the completion notification arrives on a bar whose close is 101,
so the release is `1 * 101` and the counter is left at `-1`. -/

/-- Bar data for the C1 run: close 100, buy conditions met. -/
def c1Inp : BarInput :=
  { close := 100, condBuy := true, condSell := false, totalValue := 1000, cash := 1000 }

/-- The buy order submitted in the C1 run. -/
def c1Ord : Order := { side := Side.buy, asset := assetA, size := 1 }

/-- State after the C1 bar step. -/
def c1S1 : GState := applyBar (1 / 10) initState assetA c1Inp

/-- State after the C1 completion notification, delivered at close 101. -/
def c1Final : GState := applyNotifyTerminal c1Ord OrderStatus.Completed 101 101 [] c1S1

theorem c1_vol_eval : get_purchase_vol 1000 1000 0 (1 / 10) 100 = 1 := by
  norm_num [get_purchase_vol, pyInt]

theorem c1S1_eval : c1S1 = { registry := fun _ => 0, pending := 100, inflight := [c1Ord] } := by
  unfold c1S1 applyBar initState c1Inp
  norm_num [c1_vol_eval, c1Ord]

theorem c1_step1 : Step (1 / 10) initState c1S1 :=
  Step.bar initState assetA c1Inp

theorem c1_step2 : Step (1 / 10) c1S1 c1Final :=
  Step.notifyTerm c1S1 [] [] c1Ord OrderStatus.Completed 101 101
    (by rw [c1S1_eval] ; rfl) (Or.inl rfl)

/-- C1: the code violates reservation conservation: a complete run (buy
submitted, then its completion notified — no order left unresolved) is
reachable in which `pending_operation_funds` ends at `-1`, not `0`, because
the release amount `executed.size * close-at-notification` differs from the
reserved amount `size * close-at-submission`. -/
theorem c1_pending_funds_leak :
    Relation.ReflTransGen (Step (1 / 10)) initState c1Final ∧
      c1Final.inflight = [] ∧ c1Final.pending = -1 := by
  refine ⟨Relation.ReflTransGen.head c1_step1
    (Relation.ReflTransGen.head c1_step2 Relation.ReflTransGen.refl), rfl, ?_⟩
  unfold c1Final applyNotifyTerminal
  rw [c1S1_eval]
  norm_num [notify_order, handle_completed_order, c1Ord, execSize]

/-! C4 counterexample: under an arbitrary interleaving of bar steps and
terminal notifications the ledger entry can go negative.  A buy of 5 units is
completed; then two consecutive bar steps each submit a sell of the full
position (the registry is only decremented when a completion is notified, so
the second bar still sees 5 units); both sells then complete, driving the
entry to -5. -/

/-- Bar data that triggers a buy of 5 units at close 20. -/
def c4InpBuy : BarInput :=
  { close := 20, condBuy := true, condSell := false, totalValue := 1000, cash := 1000 }

/-- Bar data that triggers a sell at close 20. -/
def c4InpSell : BarInput :=
  { close := 20, condBuy := false, condSell := true, totalValue := 1000, cash := 1000 }

/-- The buy order of the C4 run. -/
def c4OrdBuy : Order := { side := Side.buy, asset := assetA, size := 5 }

/-- The sell order submitted (twice) in the C4 run. -/
def c4OrdSell : Order := { side := Side.sell, asset := assetA, size := 5 }

/-- C4 run, state 1: after the bar that submits the buy. -/
def c4S1 : GState := applyBar (1 / 10) initState assetA c4InpBuy

/-- C4 run, state 2: after the buy completes at close 20. -/
def c4S2 : GState := applyNotifyTerminal c4OrdBuy OrderStatus.Completed 20 20 [] c4S1

/-- C4 run, state 3: after a bar that submits the first sell. -/
def c4S3 : GState := applyBar (1 / 10) c4S2 assetA c4InpSell

/-- C4 run, state 4: after a second bar, before any sell is notified,
that submits the second sell. -/
def c4S4 : GState := applyBar (1 / 10) c4S3 assetA c4InpSell

/-- C4 run, state 5: after the first sell completes. -/
def c4S5 : GState := applyNotifyTerminal c4OrdSell OrderStatus.Completed 20 20 [c4OrdSell] c4S4

/-- C4 run, state 6: after the second sell completes. -/
def c4S6 : GState := applyNotifyTerminal c4OrdSell OrderStatus.Completed 20 20 [] c4S5

theorem c4_vol_eval : get_purchase_vol 1000 1000 0 (1 / 10) 20 = 5 := by
  norm_num [get_purchase_vol, pyInt]

theorem c4S1_eval :
    c4S1 = { registry := fun _ => 0, pending := 100, inflight := [c4OrdBuy] } := by
  unfold c4S1 applyBar initState c4InpBuy
  norm_num [c4_vol_eval, c4OrdBuy]

theorem c4S2_eval :
    c4S2 = { registry := Function.update (fun _ => 0) assetA 5, pending := 0,
             inflight := [] } := by
  unfold c4S2 applyNotifyTerminal
  rw [c4S1_eval]
  norm_num [notify_order, handle_completed_order, c4OrdBuy, execSize]

theorem c4S3_eval :
    c4S3 = { registry := Function.update (fun _ => 0) assetA 5, pending := 0,
             inflight := [c4OrdSell] } := by
  unfold c4S3 applyBar c4InpSell
  rw [c4S2_eval]
  norm_num [c4OrdSell]

theorem c4S4_eval :
    c4S4 = { registry := Function.update (fun _ => 0) assetA 5, pending := 0,
             inflight := [c4OrdSell, c4OrdSell] } := by
  unfold c4S4 applyBar c4InpSell
  rw [c4S3_eval]
  norm_num [c4OrdSell]

theorem c4S5_eval :
    c4S5 = { registry := Function.update (Function.update (fun _ => 0) assetA 5) assetA 0,
             pending := 0, inflight := [c4OrdSell] } := by
  unfold c4S5 applyNotifyTerminal
  rw [c4S4_eval]
  norm_num [notify_order, handle_completed_order, c4OrdSell, execSize]
  refine ⟨?_, by decide⟩
  show Function.update (fun _ => (0 : ℤ)) assetA 5 assetA + -5 = 0
  rw [Function.update_same]
  norm_num

theorem c4_run :
    Relation.ReflTransGen (Step (1 / 10)) initState c4S6 := by
  refine Relation.ReflTransGen.head (Step.bar initState assetA c4InpBuy) ?_
  refine Relation.ReflTransGen.head
    (Step.notifyTerm c4S1 [] [] c4OrdBuy OrderStatus.Completed 20 20
      (by rw [c4S1_eval] ; rfl) (Or.inl rfl)) ?_
  refine Relation.ReflTransGen.head (Step.bar c4S2 assetA c4InpSell) ?_
  refine Relation.ReflTransGen.head (Step.bar c4S3 assetA c4InpSell) ?_
  refine Relation.ReflTransGen.head
    (Step.notifyTerm c4S4 [] [c4OrdSell] c4OrdSell OrderStatus.Completed 20 20
      (by rw [c4S4_eval] ; rfl) (Or.inl rfl)) ?_
  exact Relation.ReflTransGen.head
    (Step.notifyTerm c4S5 [] [] c4OrdSell OrderStatus.Completed 20 20
      (by rw [c4S5_eval] ; rfl) (Or.inl rfl)) Relation.ReflTransGen.refl

/-- C4 counterexample: a state with ledger entry -5 for `assetA` is reachable
from the start state by an interleaving of driver bar steps and terminal
order notifications, refuting "the per-asset ledger value is always >= 0 in
every state reachable by any interleaving". -/
theorem c4_ledger_negative_cex :
    Relation.ReflTransGen (Step (1 / 10)) initState c4S6 ∧ c4S6.registry assetA = -5 := by
  refine ⟨c4_run, ?_⟩
  unfold c4S6 applyNotifyTerminal
  rw [c4S5_eval]
  norm_num [notify_order, handle_completed_order, c4OrdSell, execSize]

/-! C6 counterexample: while a buy order is unresolved the registry entry is
still 0, so a later bar on which the entry conditions still hold submits a
second buy for the same asset. -/

/-- Bar data that triggers a buy of 5 units at close 20 (C6 run). -/
def c6Inp : BarInput :=
  { close := 20, condBuy := true, condSell := false, totalValue := 1000, cash := 1000 }

/-- The buy order submitted (twice) in the C6 run. -/
def c6Ord : Order := { side := Side.buy, asset := assetA, size := 5 }

/-- C6 run, state 1: first buy submitted, not yet resolved. -/
def c6S1 : GState := applyBar (1 / 10) initState assetA c6Inp

/-- C6 run, state 2: a second bar step before any notification submits a
second buy for the same asset. -/
def c6S2 : GState := applyBar (1 / 10) c6S1 assetA c6Inp

theorem c6_vol0_eval : get_purchase_vol 1000 1000 0 (1 / 10) 20 = 5 := by
  norm_num [get_purchase_vol, pyInt]

theorem c6S1_eval :
    c6S1 = { registry := fun _ => 0, pending := 100, inflight := [c6Ord] } := by
  unfold c6S1 applyBar initState c6Inp
  norm_num [c6_vol0_eval, c6Ord]

theorem c6_vol_eval : get_purchase_vol 1000 1000 100 (1 / 10) 20 = 5 := by
  norm_num [get_purchase_vol, pyInt]

theorem c6S2_eval :
    c6S2 = { registry := fun _ => 0, pending := 200, inflight := [c6Ord, c6Ord] } := by
  unfold c6S2 applyBar c6Inp
  rw [c6S1_eval]
  norm_num [c6_vol_eval, c6Ord]

/-- C6 counterexample: a state with two unresolved buy orders for the same
asset is reachable — the driver submitted a second buy for `assetA` before
the first one's terminal resolution, refuting the no-re-entry claim for
arbitrary notification delay. -/
theorem c6_double_buy_cex :
    Relation.ReflTransGen (Step (1 / 10)) initState c6S2 ∧
      c6S2.inflight = [c6Ord, c6Ord] ∧ c6Ord.side = Side.buy := by
  refine ⟨?_, ?_, rfl⟩
  · exact Relation.ReflTransGen.head (Step.bar initState assetA c6Inp)
      (Relation.ReflTransGen.head (Step.bar c6S1 assetA c6Inp) Relation.ReflTransGen.refl)
  · rw [c6S2_eval]

/-! Evaluation lemmas for terminal notifications, by side and status. -/

theorem applyNotifyTerminal_completed_buy (o : Order) (ho : o.side = Side.buy)
    (px cl : ℚ) (rest : List Order) (st : GState) :
    applyNotifyTerminal o OrderStatus.Completed px cl rest st =
      { registry := Function.update st.registry o.asset (st.registry o.asset + o.size),
        pending := st.pending - (o.size : ℚ) * cl,
        inflight := rest } := by
  unfold applyNotifyTerminal notify_order execSize
  rw [ho]
  rfl

theorem applyNotifyTerminal_completed_sell (o : Order) (ho : o.side = Side.sell)
    (px cl : ℚ) (rest : List Order) (st : GState) :
    applyNotifyTerminal o OrderStatus.Completed px cl rest st =
      { registry := Function.update st.registry o.asset (st.registry o.asset - o.size),
        pending := st.pending,
        inflight := rest } := by
  unfold applyNotifyTerminal notify_order execSize
  rw [ho]
  simp [handle_completed_order, sub_eq_add_neg]

theorem applyNotifyTerminal_failed (o : Order) (status : OrderStatus)
    (h : status = OrderStatus.Canceled ∨ status = OrderStatus.Margin ∨
      status = OrderStatus.Rejected)
    (px cl : ℚ) (rest : List Order) (st : GState) :
    applyNotifyTerminal o status px cl rest st =
      { registry := st.registry,
        pending := if o.side = Side.buy then st.pending - (o.size : ℚ) * cl else st.pending,
        inflight := rest } := by
  rcases h with h | h | h <;> subst h <;> cases hside : o.side <;>
    simp [applyNotifyTerminal, notify_order, handle_not_completed_order, hside]

/-! Invariant of restricted runs. -/

/-- Two orders on distinct assets. -/
def distinctAssets (o₁ o₂ : Order) : Prop := o₁.asset ≠ o₂.asset

/-- Invariant maintained along restricted runs: every registry entry is
non-negative, every in-flight order has positive size, every in-flight sell
requests exactly the current registry entry of its asset, and no two
in-flight orders are on the same asset. -/
def RInv (s : GState) : Prop :=
  (∀ a, 0 ≤ s.registry a) ∧
  (∀ o ∈ s.inflight, 0 < o.size) ∧
  (∀ o ∈ s.inflight, o.side = Side.sell → o.size = s.registry o.asset) ∧
  s.inflight.Pairwise distinctAssets

theorem rInv_init : RInv initState := by
  refine ⟨fun a => le_refl 0, ?_, ?_, ?_⟩ <;> simp [initState]

theorem rInv_preserved {frac : ℚ} {s t : GState} (hs : RInv s) (h : RStep frac s t) :
    RInv t := by
  obtain ⟨hreg, hpos, hsz, hpw⟩ := hs
  cases h with
  | bar a inp hfree =>
    unfold applyBar
    split
    · split
      case isTrue hvol =>
        refine ⟨hreg, ?_, ?_, ?_⟩
        · intro o ho
          rcases List.mem_cons.mp ho with rfl | ho'
          · exact hvol
          · exact hpos o ho'
        · intro o ho hside
          rcases List.mem_cons.mp ho with rfl | ho'
          · exact Side.noConfusion hside
          · exact hsz o ho' hside
        · exact List.pairwise_cons.mpr ⟨fun o' ho' => (hfree o' ho').symm, hpw⟩
      case isFalse => exact ⟨hreg, hpos, hsz, hpw⟩
    · split
      case isTrue hcond =>
        refine ⟨hreg, ?_, ?_, ?_⟩
        · intro o ho
          rcases List.mem_cons.mp ho with rfl | ho'
          · exact hcond.1
          · exact hpos o ho'
        · intro o ho hside
          rcases List.mem_cons.mp ho with rfl | ho'
          · rfl
          · exact hsz o ho' hside
        · exact List.pairwise_cons.mpr ⟨fun o' ho' => (hfree o' ho').symm, hpw⟩
      case isFalse => exact ⟨hreg, hpos, hsz, hpw⟩
  | notifyTerm pre post o status px cl hin hterm =>
    have homem : o ∈ s.inflight := by
      rw [hin]
      exact List.mem_append_right pre (List.mem_cons_self o post)
    have hsub : ∀ x ∈ pre ++ post, x ∈ s.inflight := by
      intro x hx
      rw [hin]
      rcases List.mem_append.mp hx with hx' | hx'
      · exact List.mem_append_left _ hx'
      · exact List.mem_append_right _ (List.mem_cons_of_mem o hx')
    have hpw' : (pre ++ o :: post).Pairwise distinctAssets := hin ▸ hpw
    have hne : ∀ x ∈ pre ++ post, x.asset ≠ o.asset := by
      intro x hx
      rcases List.mem_append.mp hx with hx' | hx'
      · exact (List.pairwise_append.mp hpw').2.2 x hx' o (List.mem_cons_self o post)
      · exact
          (Ne.symm ((List.pairwise_cons.mp (List.pairwise_append.mp hpw').2.1).1 x hx'))
    have hpw2 : (pre ++ post).Pairwise distinctAssets :=
      hpw'.sublist ((List.sublist_cons_self o post).append_left pre)
    rcases hterm with hC | hC | hC | hC
    · subst hC
      cases hside : o.side
      · rw [applyNotifyTerminal_completed_buy o hside]
        refine ⟨?_, fun x hx => hpos x (hsub x hx), ?_, hpw2⟩
        · intro b
          dsimp only
          by_cases hb : b = o.asset
          · subst hb
            rw [Function.update_same]
            exact add_nonneg (hreg o.asset) (hpos o homem).le
          · rw [Function.update_noteq hb]
            exact hreg b
        · intro x hx hxs
          dsimp only
          rw [Function.update_noteq (hne x hx)]
          exact hsz x (hsub x hx) hxs
      · rw [applyNotifyTerminal_completed_sell o hside]
        refine ⟨?_, fun x hx => hpos x (hsub x hx), ?_, hpw2⟩
        · intro b
          dsimp only
          by_cases hb : b = o.asset
          · subst hb
            rw [Function.update_same]
            have := hsz o homem hside
            omega
          · rw [Function.update_noteq hb]
            exact hreg b
        · intro x hx hxs
          dsimp only
          rw [Function.update_noteq (hne x hx)]
          exact hsz x (hsub x hx) hxs
    all_goals
      rw [applyNotifyTerminal_failed o status (by simp [hC])]
      exact ⟨hreg, fun x hx => hpos x (hsub x hx),
        fun x hx hxs => hsz x (hsub x hx) hxs, hpw2⟩
  | notifyNonTerm o status px cl hmem hnt =>
    rw [notify_order_nonterminal status hnt]
    exact ⟨hreg, hpos, hsz, hpw⟩

theorem rInv_reachable {frac : ℚ} {s : GState}
    (h : Relation.ReflTransGen (RStep frac) initState s) : RInv s := by
  induction h with
  | refl => exact rInv_init
  | tail hsteps hstep ih => exact rInv_preserved ih hstep

/-- C4 (amended): in every run in which each order's terminal notification is
processed before the next bar step on its asset (the scheduling of the real
order engine), every reachable state has a non-negative ledger entry for
every asset. -/
theorem c4_ledger_nonneg (frac : ℚ) (s : GState) (a : String)
    (h : Relation.ReflTransGen (RStep frac) initState s) : 0 ≤ s.registry a :=
  (rInv_reachable h).1 a

theorem c4_ledger_nonneg_witness : 0 ≤ c4S2.registry assetA :=
  c4_ledger_nonneg (1 / 10) c4S2 assetA
    (Relation.ReflTransGen.head
      (RStep.bar initState assetA c4InpBuy (fun o ho => absurd ho (List.not_mem_nil o)))
      (Relation.ReflTransGen.head
        (RStep.notifyTerm c4S1 [] [] c4OrdBuy OrderStatus.Completed 20 20
          (by rw [c4S1_eval] ; rfl) (Or.inl rfl))
        Relation.ReflTransGen.refl))

/-- C6 (amended): in every run in which each order's terminal notification is
processed before the next bar step on its asset, no two orders on the same
asset are ever simultaneously in flight — in particular the driver never
submits a second buy for an asset while the first buy is still unresolved. -/
theorem c6_no_overlapping_orders (frac : ℚ) (s : GState)
    (h : Relation.ReflTransGen (RStep frac) initState s) :
    s.inflight.Pairwise distinctAssets :=
  (rInv_reachable h).2.2.2

theorem c6_no_overlapping_orders_witness : c6S1.inflight.Pairwise distinctAssets :=
  c6_no_overlapping_orders (1 / 10) c6S1
    (Relation.ReflTransGen.head
      (RStep.bar initState assetA c6Inp (fun o ho => absurd ho (List.not_mem_nil o)))
      Relation.ReflTransGen.refl)

end TradingBot
